import Mathlib

/-!
Verification of the wheel-actuation and frame-streaming core of the
auto_car repository (car.py, pilot_client.py, pilot_serv.py).

Duty-cycle values are modelled as rationals (the Python code mixes ints
and floats such as 0.2; over ℚ the bias arithmetic is exact).  Each
hardware interaction (GPIO direction writes, PWM duty-cycle writes,
socket reads/writes, flushes) is recorded as an explicit event so that
claims about which signals are actually issued can be stated as facts
about event traces.
-/

namespace AutoCar

/-- Rotation direction stored in `Wheel._last_dir`:
`s` = stopped, `c` = clockwise, `a` = anticlockwise. -/
inductive Dir
  | s
  | c
  | a
deriving DecidableEq

/-- GPIO output level. -/
inductive Level
  | high
  | low
deriving DecidableEq

/-- One hardware action issued by a wheel.  `dirWrite l1 l2` stands for
the pair of consecutive `GPIO.output` calls on `dir_pin_1` and
`dir_pin_2` (car.py always issues the two together as one direction
change), `dutyWrite v` for `motor_pwm.ChangeDutyCycle(v)`. -/
inductive WheelEvent
  | dirWrite (l1 l2 : Level)
  | dutyWrite (v : ℚ)
deriving DecidableEq

/-- Mutable state of one `Wheel` (car.py lines 25-27). -/
structure WheelState where
  last_dir : Dir
  last_dc_val : ℚ
  current_dc_val : ℚ
deriving DecidableEq

/-- State set by `Wheel.__init__`: `_last_dir = 's'`, `_last_dc_val = 0`,
`_current_dc_val = 0`. -/
def Wheel.init : WheelState := ⟨Dir.s, 0, 0⟩

/-- Hardware events issued by `Wheel.__init__`: `_motor_pwm.start(0)`
issues an initial duty-cycle signal of 0 (car.py line 38).  No direction
levels are written during construction. -/
def Wheel.initEvents : List WheelEvent := [WheelEvent.dutyWrite 0]

/-- `Wheel.clockwise_rotate` (car.py lines 40-54): if `_last_dir` is not
`'c'`, write dir_pin_1 HIGH and dir_pin_2 LOW and set `_last_dir = 'c'`;
then set `_current_dc_val = speed` and, if it differs from
`_last_dc_val`, issue `ChangeDutyCycle(speed)` and update
`_last_dc_val`.  Returns the new state and the issued events. -/
def Wheel.clockwise_rotate (w : WheelState) (speed : ℚ) :
    WheelState × List WheelEvent :=
  let w1 := if w.last_dir ≠ Dir.c then { w with last_dir := Dir.c } else w
  let dirEvs : List WheelEvent :=
    if w.last_dir ≠ Dir.c then [WheelEvent.dirWrite Level.high Level.low]
    else []
  let w2 := { w1 with current_dc_val := speed }
  if w2.current_dc_val ≠ w2.last_dc_val then
    ({ w2 with last_dc_val := w2.current_dc_val },
      dirEvs ++ [WheelEvent.dutyWrite speed])
  else (w2, dirEvs)

/-- `Wheel.anticlockwise_rotate` (car.py lines 56-70): same as
`clockwise_rotate` with direction `'a'` and pin levels LOW, HIGH. -/
def Wheel.anticlockwise_rotate (w : WheelState) (speed : ℚ) :
    WheelState × List WheelEvent :=
  let w1 := if w.last_dir ≠ Dir.a then { w with last_dir := Dir.a } else w
  let dirEvs : List WheelEvent :=
    if w.last_dir ≠ Dir.a then [WheelEvent.dirWrite Level.low Level.high]
    else []
  let w2 := { w1 with current_dc_val := speed }
  if w2.current_dc_val ≠ w2.last_dc_val then
    ({ w2 with last_dc_val := w2.current_dc_val },
      dirEvs ++ [WheelEvent.dutyWrite speed])
  else (w2, dirEvs)

/-- `Wheel.stop` (car.py lines 72-77): unconditionally write both
direction pins HIGH and set `_last_dir = 's'`; the duty-cycle write is
commented out in the source, so none is issued. -/
def Wheel.stop (w : WheelState) : WheelState × List WheelEvent :=
  ({ w with last_dir := Dir.s },
    [WheelEvent.dirWrite Level.high Level.high])

/-- Pin-level pairs of the direction-control writes in an event list. -/
def dirValues (evs : List WheelEvent) : List (Level × Level) :=
  evs.filterMap fun e =>
    match e with
    | WheelEvent.dirWrite l1 l2 => some (l1, l2)
    | WheelEvent.dutyWrite _ => none

/-- Values carried by the duty-cycle writes in an event list. -/
def dutyValues (evs : List WheelEvent) : List ℚ :=
  evs.filterMap fun e =>
    match e with
    | WheelEvent.dirWrite _ _ => none
    | WheelEvent.dutyWrite v => some v

/-- Pin levels that each stored direction value corresponds to on the
wire: clockwise is (HIGH, LOW), anticlockwise is (LOW, HIGH), stop
writes (HIGH, HIGH). -/
def dirLevels : Dir → Level × Level
  | Dir.c => (Level.high, Level.low)
  | Dir.a => (Level.low, Level.high)
  | Dir.s => (Level.high, Level.high)

/-- A rotation request: one `clockwise_rotate` or `anticlockwise_rotate`
call with its speed argument. -/
inductive RotCall
  | cw (speed : ℚ)
  | ccw (speed : ℚ)

/-- Run a sequence of rotation calls on a wheel, accumulating the
hardware events in order. -/
def runRot (w : WheelState) : List RotCall → WheelState × List WheelEvent
  | [] => (w, [])
  | RotCall.cw s :: rest =>
      let p := Wheel.clockwise_rotate w s
      let q := runRot p.1 rest
      (q.1, p.2 ++ q.2)
  | RotCall.ccw s :: rest =>
      let p := Wheel.anticlockwise_rotate w s
      let q := runRot p.1 rest
      (q.1, p.2 ++ q.2)

/-- Trim constants of car.py lines 8-10.  `LEFT_FR_BIAS = 1`. -/
def LEFT_FR_BIAS : ℚ := 1

/-- `RIGHT_FR_BIAS = 1` (car.py line 9). -/
def RIGHT_FR_BIAS : ℚ := 1

/-- `LEFT_RIGHT_BIAS = 0.2` (car.py line 10). -/
def LEFT_RIGHT_BIAS : ℚ := 0.2

/-- The four wheel slots of a `Car` (car.py lines 112-118). -/
inductive WheelId
  | front_left
  | front_right
  | rear_left
  | rear_right
deriving DecidableEq

/-- State of a `Car`: the states of its four wheels. -/
structure CarState where
  front_left_wheel : WheelState
  front_right_wheel : WheelState
  rear_left_wheel : WheelState
  rear_right_wheel : WheelState
deriving DecidableEq

/-- Car built in pilot_client.py lines 16-25: four freshly initialised
wheels. -/
def Car.init : CarState := ⟨Wheel.init, Wheel.init, Wheel.init, Wheel.init⟩

/-- Tag each event of one wheel with the wheel it was issued on. -/
def tagged (id : WheelId) (evs : List WheelEvent) :
    List (WheelId × WheelEvent) :=
  evs.map fun e => (id, e)

/-- `Car.move_forward` (car.py lines 120-130): front-left and rear-left
anticlockwise, front-right and rear-right clockwise, with the additive
biases of lines 127-130. -/
def Car.move_forward (car : CarState) (speed : ℚ) :
    CarState × List (WheelId × WheelEvent) :=
  let p1 := Wheel.anticlockwise_rotate car.front_left_wheel
    (speed + LEFT_FR_BIAS + LEFT_RIGHT_BIAS)
  let p2 := Wheel.clockwise_rotate car.front_right_wheel
    (speed + RIGHT_FR_BIAS)
  let p3 := Wheel.anticlockwise_rotate car.rear_left_wheel
    (speed + LEFT_RIGHT_BIAS)
  let p4 := Wheel.clockwise_rotate car.rear_right_wheel speed
  (⟨p1.1, p2.1, p3.1, p4.1⟩,
    tagged WheelId.front_left p1.2 ++ tagged WheelId.front_right p2.2 ++
    tagged WheelId.rear_left p3.2 ++ tagged WheelId.rear_right p4.2)

/-- `Car.move_reverse` (car.py lines 132-142). -/
def Car.move_reverse (car : CarState) (speed : ℚ) :
    CarState × List (WheelId × WheelEvent) :=
  let p1 := Wheel.clockwise_rotate car.front_left_wheel
    (speed + LEFT_FR_BIAS + LEFT_RIGHT_BIAS)
  let p2 := Wheel.anticlockwise_rotate car.front_right_wheel
    (speed + RIGHT_FR_BIAS)
  let p3 := Wheel.clockwise_rotate car.rear_left_wheel
    (speed + LEFT_RIGHT_BIAS)
  let p4 := Wheel.anticlockwise_rotate car.rear_right_wheel speed
  (⟨p1.1, p2.1, p3.1, p4.1⟩,
    tagged WheelId.front_left p1.2 ++ tagged WheelId.front_right p2.2 ++
    tagged WheelId.rear_left p3.2 ++ tagged WheelId.rear_right p4.2)

/-- `Car.turn_left` (car.py lines 144-154): inner (left) wheels get the
constant base 1 instead of `speed`. -/
def Car.turn_left (car : CarState) (speed : ℚ) :
    CarState × List (WheelId × WheelEvent) :=
  let p1 := Wheel.anticlockwise_rotate car.front_left_wheel
    (1 + LEFT_FR_BIAS + LEFT_RIGHT_BIAS)
  let p2 := Wheel.clockwise_rotate car.front_right_wheel
    (speed + RIGHT_FR_BIAS)
  let p3 := Wheel.anticlockwise_rotate car.rear_left_wheel
    (1 + LEFT_RIGHT_BIAS)
  let p4 := Wheel.clockwise_rotate car.rear_right_wheel speed
  (⟨p1.1, p2.1, p3.1, p4.1⟩,
    tagged WheelId.front_left p1.2 ++ tagged WheelId.front_right p2.2 ++
    tagged WheelId.rear_left p3.2 ++ tagged WheelId.rear_right p4.2)

/-- `Car.turn_right` (car.py lines 156-166). -/
def Car.turn_right (car : CarState) (speed : ℚ) :
    CarState × List (WheelId × WheelEvent) :=
  let p1 := Wheel.anticlockwise_rotate car.front_left_wheel
    (speed + LEFT_FR_BIAS + LEFT_RIGHT_BIAS)
  let p2 := Wheel.clockwise_rotate car.front_right_wheel
    (1 + RIGHT_FR_BIAS)
  let p3 := Wheel.anticlockwise_rotate car.rear_left_wheel
    (speed + LEFT_RIGHT_BIAS)
  let p4 := Wheel.clockwise_rotate car.rear_right_wheel 1
  (⟨p1.1, p2.1, p3.1, p4.1⟩,
    tagged WheelId.front_left p1.2 ++ tagged WheelId.front_right p2.2 ++
    tagged WheelId.rear_left p3.2 ++ tagged WheelId.rear_right p4.2)

/-- `Car.rotate_left` (car.py lines 168-178): all four wheels clockwise
(pivot in place); the rear-left wheel gets the extra constant offset 1. -/
def Car.rotate_left (car : CarState) (speed : ℚ) :
    CarState × List (WheelId × WheelEvent) :=
  let p1 := Wheel.clockwise_rotate car.front_left_wheel
    (speed + LEFT_FR_BIAS + LEFT_RIGHT_BIAS)
  let p2 := Wheel.clockwise_rotate car.front_right_wheel
    (speed + RIGHT_FR_BIAS)
  let p3 := Wheel.clockwise_rotate car.rear_left_wheel
    (speed + 1 + LEFT_RIGHT_BIAS)
  let p4 := Wheel.clockwise_rotate car.rear_right_wheel speed
  (⟨p1.1, p2.1, p3.1, p4.1⟩,
    tagged WheelId.front_left p1.2 ++ tagged WheelId.front_right p2.2 ++
    tagged WheelId.rear_left p3.2 ++ tagged WheelId.rear_right p4.2)

/-- `Car.rotate_right` (car.py lines 180-190): all four wheels
anticlockwise; the rear-left wheel gets the extra constant offset 1. -/
def Car.rotate_right (car : CarState) (speed : ℚ) :
    CarState × List (WheelId × WheelEvent) :=
  let p1 := Wheel.anticlockwise_rotate car.front_left_wheel
    (speed + LEFT_FR_BIAS + LEFT_RIGHT_BIAS)
  let p2 := Wheel.anticlockwise_rotate car.front_right_wheel
    (speed + RIGHT_FR_BIAS)
  let p3 := Wheel.anticlockwise_rotate car.rear_left_wheel
    (speed + 1 + LEFT_RIGHT_BIAS)
  let p4 := Wheel.anticlockwise_rotate car.rear_right_wheel speed
  (⟨p1.1, p2.1, p3.1, p4.1⟩,
    tagged WheelId.front_left p1.2 ++ tagged WheelId.front_right p2.2 ++
    tagged WheelId.rear_left p3.2 ++ tagged WheelId.rear_right p4.2)

/-- `Car.stop` (car.py lines 192-197): stop all four wheels. -/
def Car.stop (car : CarState) : CarState × List (WheelId × WheelEvent) :=
  let p1 := Wheel.stop car.front_left_wheel
  let p2 := Wheel.stop car.front_right_wheel
  let p3 := Wheel.stop car.rear_left_wheel
  let p4 := Wheel.stop car.rear_right_wheel
  (⟨p1.1, p2.1, p3.1, p4.1⟩,
    tagged WheelId.front_left p1.2 ++ tagged WheelId.front_right p2.2 ++
    tagged WheelId.rear_left p3.2 ++ tagged WheelId.rear_right p4.2)

/-- Decision dispatch of the client loop (pilot_client.py lines 63-76):
the decoded byte `key` selects `move_forward(4)` for ASCII `'0'` (48),
`rotate_left(4)` for `'1'` (49), `rotate_right(4)` for `'2'` (50); the
if/elif chain has no else branch, so any other byte does nothing. -/
def dispatch (car : CarState) (key : ℕ) :
    CarState × List (WheelId × WheelEvent) :=
  if key = 48 then Car.move_forward car 4
  else if key = 49 then Car.rotate_left car 4
  else if key = 50 then Car.rotate_right car 4
  else (car, [])

/-- Run the dispatch on a whole sequence of received decision bytes,
accumulating the issued hardware events. -/
def dispatchRun (car : CarState) :
    List ℕ → CarState × List (WheelId × WheelEvent)
  | [] => (car, [])
  | k :: ks =>
      let p := dispatch car k
      let q := dispatchRun p.1 ks
      (q.1, p.2 ++ q.2)

/-- A decision byte the client recognizes: ASCII `'0'`, `'1'` or `'2'`. -/
def recognized (key : ℕ) : Prop := key = 48 ∨ key = 49 ∨ key = 50

/-- Every wheel of the car is being driven: its direction is a rotation
(not the stopped/brake state) and its issued duty cycle is positive. -/
def driven (car : CarState) : Prop :=
  (car.front_left_wheel.last_dir ≠ Dir.s ∧
    0 < car.front_left_wheel.last_dc_val) ∧
  (car.front_right_wheel.last_dir ≠ Dir.s ∧
    0 < car.front_right_wheel.last_dc_val) ∧
  (car.rear_left_wheel.last_dir ≠ Dir.s ∧
    0 < car.rear_left_wheel.last_dc_val) ∧
  (car.rear_right_wheel.last_dir ≠ Dir.s ∧
    0 < car.rear_right_wheel.last_dc_val)

/-- Decode a list of bytes as an unsigned little-endian integer
(`struct.unpack` with format `<L`; the server reads
`struct.calcsize` = 4 bytes for it, pilot_serv.py line 36). -/
def decodeLE (bs : List ℕ) : ℕ := bs.foldr (fun b acc => b + 256 * acc) 0

/-- Encode a number as its 4 little-endian bytes (`struct.pack` with
format `<L`, pilot_client.py line 50). -/
def encodeLE (n : ℕ) : List ℕ :=
  [n % 256, n / 256 % 256, n / 256 ^ 2 % 256, n / 256 ^ 3 % 256]

/-- ASCII bytes of the decimal representation of a natural number
(Python `str(key).encode` in pilot_serv.py line 72). -/
def asciiDecimal (n : ℕ) : List ℕ :=
  if h : n < 10 then [48 + n]
  else asciiDecimal (n / 10) ++ [48 + n % 10]
decreasing_by exact Nat.div_lt_self (by omega) (by omega)

/-- Connection-level actions of one server-loop iteration
(pilot_serv.py): reads from the connection, the hand-off of the payload
to the perception model, writes, and flushes. -/
inductive ServEvent
  | readBytes (bs : List ℕ)
  | classifyCall (payload : List ℕ)
  | writeBytes (bs : List ℕ)
  | flush
deriving DecidableEq

/-- One iteration of the server while-loop (pilot_serv.py lines 33-73).
`classify` models `model.predict` followed by `np.argmax` (the
perception collaborator); `s` is the incoming byte stream.  The
iteration reads 4 length bytes; on a zero length it breaks out of the
loop (`none`), otherwise it reads the payload, classifies it, writes
the ASCII decimal of the result and flushes, returning the remaining
stream.  (The operator `'q'` keypress of line 76 can only end the loop
after the write and flush, so it does not affect the events of an
iteration and is not modelled.) -/
def serverStep (classify : List ℕ → ℕ) (s : List ℕ) :
    List ServEvent × Option (List ℕ) :=
  let lenBytes := s.take 4
  let image_len := decodeLE lenBytes
  if image_len = 0 then ([ServEvent.readBytes lenBytes], none)
  else
    let payload := (s.drop 4).take image_len
    let key := classify payload
    ([ServEvent.readBytes lenBytes, ServEvent.readBytes payload,
      ServEvent.classifyCall payload,
      ServEvent.writeBytes (asciiDecimal key), ServEvent.flush],
      some ((s.drop 4).drop image_len))

/-- Iterate the server loop on the stream, accumulating events until
the zero-length sentinel (or the fuel bound). -/
def serverRun (classify : List ℕ → ℕ) : ℕ → List ℕ → List ServEvent
  | 0, _ => []
  | fuel + 1, s =>
      match serverStep classify s with
      | (evs, none) => evs
      | (evs, some rest) => evs ++ serverRun classify fuel rest

/-- Connection-level actions of one client-loop iteration
(pilot_client.py lines 48-76): frame capture, connection writes, the
flush, the blocking one-byte decision read, and the dispatch on the
received key. -/
inductive ClientEvent
  | capture (frame : List ℕ)
  | writeBytes (bs : List ℕ)
  | flush
  | readDecision
  | act (key : ℕ)
deriving DecidableEq

/-- One iteration of the client capture loop after the frame is in the
stream (pilot_client.py lines 50-76), in source order: write the 4-byte
little-endian length (line 50), flush (line 51), write the payload
(line 53), block reading one decision byte (line 61), then dispatch it
(lines 63-76).  `key` is the decision byte the server answers with. -/
def clientStep (frame : List ℕ) (key : ℕ) (car : CarState) :
    List ClientEvent × CarState :=
  ([ClientEvent.writeBytes (encodeLE frame.length), ClientEvent.flush,
    ClientEvent.writeBytes frame, ClientEvent.readDecision,
    ClientEvent.act key],
    (dispatch car key).1)

/-- Run the client loop over a list of (captured frame, answered
decision byte) pairs; each iteration starts with its capture. -/
def clientRun (car : CarState) :
    List (List ℕ × ℕ) → List ClientEvent × CarState
  | [] => ([], car)
  | (frame, key) :: rest =>
      let p := clientStep frame key car
      let q := clientRun p.2 rest
      (ClientEvent.capture frame :: p.1 ++ q.1, q.2)

/-- Iteration order asserted by the spec (its §4.3 client loop, worded
as length prefix, payload, flush, read): stated from the spec's words,
to be compared against `clientStep`, which is the source's order. -/
def specClientOrder (frame : List ℕ) (key : ℕ) : List ClientEvent :=
  [ClientEvent.writeBytes (encodeLE frame.length),
    ClientEvent.writeBytes frame, ClientEvent.flush,
    ClientEvent.readDecision, ClientEvent.act key]

/-- Predicate of the spec's clamping requirement (its §4.1): every duty
cycle actually issued lies in `[0, 100]`.  Stated from the spec's
words, to be compared against what the source issues. -/
def dutyInRange (evs : List WheelEvent) : Prop :=
  ∀ v ∈ dutyValues evs, 0 ≤ v ∧ v ≤ 100

theorem dirValues_append (l1 l2 : List WheelEvent) :
    dirValues (l1 ++ l2) = dirValues l1 ++ dirValues l2 :=
  List.filterMap_append l1 l2 _

theorem dutyValues_append (l1 l2 : List WheelEvent) :
    dutyValues (l1 ++ l2) = dutyValues l1 ++ dutyValues l2 :=
  List.filterMap_append l1 l2 _

/-- After `clockwise_rotate`, the stored state is fully determined:
direction `'c'`, and both duty-cycle fields hold the requested speed
(when the speed differed from `_last_dc_val` it was stored; when it was
equal, the old value already was the speed). -/
theorem Wheel.cw_state (w : WheelState) (s : ℚ) :
    (Wheel.clockwise_rotate w s).1 = ⟨Dir.c, s, s⟩ := by
  rcases w with ⟨d, lv, cv⟩
  by_cases hd : d = Dir.c <;> by_cases hv : s = lv <;>
    simp_all [Wheel.clockwise_rotate]

theorem Wheel.ccw_state (w : WheelState) (s : ℚ) :
    (Wheel.anticlockwise_rotate w s).1 = ⟨Dir.a, s, s⟩ := by
  rcases w with ⟨d, lv, cv⟩
  by_cases hd : d = Dir.a <;> by_cases hv : s = lv <;>
    simp_all [Wheel.anticlockwise_rotate]

/-- Events issued by `clockwise_rotate`: a direction write exactly when
the last direction was not `'c'`, then a duty-cycle write exactly when
the requested speed differs from `_last_dc_val`. -/
theorem Wheel.cw_events (w : WheelState) (s : ℚ) :
    (Wheel.clockwise_rotate w s).2 =
      (if w.last_dir ≠ Dir.c then [WheelEvent.dirWrite Level.high Level.low]
        else []) ++
      (if s ≠ w.last_dc_val then [WheelEvent.dutyWrite s] else []) := by
  rcases w with ⟨d, lv, cv⟩
  by_cases hd : d = Dir.c <;> by_cases hv : s = lv <;>
    simp_all [Wheel.clockwise_rotate]

theorem Wheel.ccw_events (w : WheelState) (s : ℚ) :
    (Wheel.anticlockwise_rotate w s).2 =
      (if w.last_dir ≠ Dir.a then [WheelEvent.dirWrite Level.low Level.high]
        else []) ++
      (if s ≠ w.last_dc_val then [WheelEvent.dutyWrite s] else []) := by
  rcases w with ⟨d, lv, cv⟩
  by_cases hd : d = Dir.a <;> by_cases hv : s = lv <;>
    simp_all [Wheel.anticlockwise_rotate]

theorem Wheel.cw_dirValues (w : WheelState) (s : ℚ) :
    dirValues (Wheel.clockwise_rotate w s).2 =
      if w.last_dir ≠ Dir.c then [(Level.high, Level.low)] else [] := by
  rw [Wheel.cw_events, dirValues_append]
  split_ifs <;> simp [dirValues]

theorem Wheel.ccw_dirValues (w : WheelState) (s : ℚ) :
    dirValues (Wheel.anticlockwise_rotate w s).2 =
      if w.last_dir ≠ Dir.a then [(Level.low, Level.high)] else [] := by
  rw [Wheel.ccw_events, dirValues_append]
  split_ifs <;> simp [dirValues]

theorem Wheel.cw_dutyValues (w : WheelState) (s : ℚ) :
    dutyValues (Wheel.clockwise_rotate w s).2 =
      if s ≠ w.last_dc_val then [s] else [] := by
  rw [Wheel.cw_events, dutyValues_append]
  split_ifs <;> simp [dutyValues]

theorem Wheel.ccw_dutyValues (w : WheelState) (s : ℚ) :
    dutyValues (Wheel.anticlockwise_rotate w s).2 =
      if s ≠ w.last_dc_val then [s] else [] := by
  rw [Wheel.ccw_events, dutyValues_append]
  split_ifs <;> simp [dutyValues]

/-- Along any run of rotation calls, `_last_dc_val` equals the value of
the most recent duty-cycle write of the run, defaulting to the starting
value when the run issued none. -/
theorem runRot_last_dc (calls : List RotCall) : ∀ w : WheelState,
    (runRot w calls).1.last_dc_val =
      ((dutyValues (runRot w calls).2).getLast?).getD w.last_dc_val := by
  induction calls with
  | nil => intro w; simp [runRot, dutyValues]
  | cons call rest ih =>
    intro w
    cases call with
    | cw s =>
      simp only [runRot]
      rw [ih, Wheel.cw_state, dutyValues_append, List.getLast?_append,
        Wheel.cw_dutyValues]
      rcases hq : (dutyValues (runRot ⟨Dir.c, s, s⟩ rest).2).getLast? with _ | x
      · split_ifs with h <;> simp_all
      · simp [Option.or]
    | ccw s =>
      simp only [runRot]
      rw [ih, Wheel.ccw_state, dutyValues_append, List.getLast?_append,
        Wheel.ccw_dutyValues]
      rcases hq : (dutyValues (runRot ⟨Dir.a, s, s⟩ rest).2).getLast? with _ | x
      · split_ifs with h <;> simp_all
      · simp [Option.or]

/-- Along any run of rotation calls, the pin levels of `_last_dir`
equal the most recent direction-control write of the run, defaulting to
the starting direction when the run issued none. -/
theorem runRot_last_dir (calls : List RotCall) : ∀ w : WheelState,
    dirLevels ((runRot w calls).1.last_dir) =
      ((dirValues (runRot w calls).2).getLast?).getD
        (dirLevels w.last_dir) := by
  induction calls with
  | nil => intro w; simp [runRot, dirValues]
  | cons call rest ih =>
    intro w
    cases call with
    | cw s =>
      simp only [runRot]
      rw [ih, Wheel.cw_state, dirValues_append, List.getLast?_append,
        Wheel.cw_dirValues]
      rcases hq : (dirValues (runRot ⟨Dir.c, s, s⟩ rest).2).getLast? with _ | x
      · split_ifs with h <;> simp_all [dirLevels]
      · simp [Option.or]
    | ccw s =>
      simp only [runRot]
      rw [ih, Wheel.ccw_state, dirValues_append, List.getLast?_append,
        Wheel.ccw_dirValues]
      rcases hq : (dirValues (runRot ⟨Dir.a, s, s⟩ rest).2).getLast? with _ | x
      · split_ifs with h <;> simp_all [dirLevels]
      · simp [Option.or]

/-- A nonempty run started from the stopped direction issues at least
one direction-control write (the first call changes direction). -/
theorem runRot_dirValues_ne_nil (calls : List RotCall) (w : WheelState)
    (h : calls ≠ []) (hw : w.last_dir = Dir.s) :
    dirValues (runRot w calls).2 ≠ [] := by
  cases calls with
  | nil => exact absurd rfl h
  | cons call rest =>
    cases call with
    | cw s =>
      simp only [runRot, dirValues_append, Wheel.cw_dirValues, hw]
      simp
    | ccw s =>
      simp only [runRot, dirValues_append, Wheel.ccw_dirValues, hw]
      simp

theorem asciiDecimal_single (n : ℕ) (h : n < 10) :
    asciiDecimal n = [48 + n] := by
  rw [asciiDecimal]
  simp [h]

theorem serverStep_zero (classify : List ℕ → ℕ) (s : List ℕ)
    (h : decodeLE (s.take 4) = 0) :
    serverStep classify s = ([ServEvent.readBytes (s.take 4)], none) := by
  simp [serverStep, h]

theorem serverStep_pos (classify : List ℕ → ℕ) (s : List ℕ)
    (h : decodeLE (s.take 4) ≠ 0) :
    serverStep classify s =
      ([ServEvent.readBytes (s.take 4),
        ServEvent.readBytes ((s.drop 4).take (decodeLE (s.take 4))),
        ServEvent.classifyCall ((s.drop 4).take (decodeLE (s.take 4))),
        ServEvent.writeBytes
          (asciiDecimal (classify ((s.drop 4).take (decodeLE (s.take 4))))),
        ServEvent.flush],
        some ((s.drop 4).drop (decodeLE (s.take 4)))) := by
  simp [serverStep, h]

theorem serverRun_succ_pos (classify : List ℕ → ℕ) (fuel : ℕ) (s : List ℕ)
    (h : decodeLE (s.take 4) ≠ 0) :
    serverRun classify (fuel + 1) s =
      (serverStep classify s).1 ++
        serverRun classify fuel ((s.drop 4).drop (decodeLE (s.take 4))) := by
  rw [serverRun, serverStep_pos classify s h]

/-- The dispatch's else branch: a byte outside {48, 49, 50} does
nothing. -/
theorem dispatch_eq_of_not_recognized (car : CarState) (key : ℕ)
    (h : ¬ recognized key) : dispatch car key = (car, []) := by
  rcases not_or.mp h with ⟨h1, hrest⟩
  rcases not_or.mp hrest with ⟨h2, h3⟩
  simp [dispatch, h1, h2, h3]

theorem mem_tagged {id : WheelId} {l : List WheelEvent}
    {e : WheelId × WheelEvent} (h : e ∈ tagged id l) : e.2 ∈ l := by
  simp only [tagged, List.mem_map] at h
  rcases h with ⟨ev, hev, rfl⟩
  exact hev

theorem Wheel.cw_no_brake (w : WheelState) (s : ℚ) :
    ∀ e ∈ (Wheel.clockwise_rotate w s).2,
      e ≠ WheelEvent.dirWrite Level.high Level.high := by
  intro e he
  rw [Wheel.cw_events] at he
  rcases List.mem_append.mp he with h | h <;> split_ifs at h <;> simp_all

theorem Wheel.ccw_no_brake (w : WheelState) (s : ℚ) :
    ∀ e ∈ (Wheel.anticlockwise_rotate w s).2,
      e ≠ WheelEvent.dirWrite Level.high Level.high := by
  intro e he
  rw [Wheel.ccw_events] at he
  rcases List.mem_append.mp he with h | h <;> split_ifs at h <;> simp_all

theorem move_forward_no_brake (car : CarState) (s : ℚ) :
    ∀ e ∈ (Car.move_forward car s).2,
      e.2 ≠ WheelEvent.dirWrite Level.high Level.high := by
  intro e he
  simp only [Car.move_forward, List.append_assoc, List.mem_append] at he
  rcases he with h | h | h | h
  · exact Wheel.ccw_no_brake _ _ _ (mem_tagged h)
  · exact Wheel.cw_no_brake _ _ _ (mem_tagged h)
  · exact Wheel.ccw_no_brake _ _ _ (mem_tagged h)
  · exact Wheel.cw_no_brake _ _ _ (mem_tagged h)

theorem rotate_left_no_brake (car : CarState) (s : ℚ) :
    ∀ e ∈ (Car.rotate_left car s).2,
      e.2 ≠ WheelEvent.dirWrite Level.high Level.high := by
  intro e he
  simp only [Car.rotate_left, List.append_assoc, List.mem_append] at he
  rcases he with h | h | h | h <;>
    exact Wheel.cw_no_brake _ _ _ (mem_tagged h)

theorem rotate_right_no_brake (car : CarState) (s : ℚ) :
    ∀ e ∈ (Car.rotate_right car s).2,
      e.2 ≠ WheelEvent.dirWrite Level.high Level.high := by
  intro e he
  simp only [Car.rotate_right, List.append_assoc, List.mem_append] at he
  rcases he with h | h | h | h <;>
    exact Wheel.ccw_no_brake _ _ _ (mem_tagged h)

theorem dispatch_no_brake (car : CarState) (key : ℕ) :
    ∀ e ∈ (dispatch car key).2,
      e.2 ≠ WheelEvent.dirWrite Level.high Level.high := by
  intro e he
  by_cases h0 : key = 48
  · subst h0
    simp only [dispatch, if_pos rfl] at he
    exact move_forward_no_brake car 4 e he
  by_cases h1 : key = 49
  · subst h1
    simp only [dispatch] at he
    norm_num at he
    exact rotate_left_no_brake car 4 e he
  by_cases h2 : key = 50
  · subst h2
    simp only [dispatch] at he
    norm_num at he
    exact rotate_right_no_brake car 4 e he
  · rw [dispatch_eq_of_not_recognized car key (by simp [recognized, h0, h1, h2])] at he
    simp at he

theorem dispatchRun_no_brake (keys : List ℕ) : ∀ car : CarState,
    ∀ e ∈ (dispatchRun car keys).2,
      e.2 ≠ WheelEvent.dirWrite Level.high Level.high := by
  induction keys with
  | nil => intro car e he; simp [dispatchRun] at he
  | cons k rest ih =>
      intro car e he
      simp only [dispatchRun, List.mem_append] at he
      rcases he with h | h
      · exact dispatch_no_brake car k e h
      · exact ih _ e h

theorem driven_dispatch_recognized (car : CarState) (key : ℕ)
    (h : recognized key) : driven (dispatch car key).1 := by
  rcases h with rfl | rfl | rfl <;>
    norm_num [dispatch, Car.move_forward, Car.rotate_left, Car.rotate_right,
      driven, Wheel.cw_state, Wheel.ccw_state,
      LEFT_FR_BIAS, RIGHT_FR_BIAS, LEFT_RIGHT_BIAS] <;> simp

theorem driven_dispatch_step (car : CarState) (key : ℕ) (h : driven car) :
    driven (dispatch car key).1 := by
  by_cases hk : recognized key
  · exact driven_dispatch_recognized car key hk
  · rw [dispatch_eq_of_not_recognized car key hk]
    exact h

theorem driven_dispatchRun (ks : List ℕ) : ∀ car : CarState, driven car →
    driven (dispatchRun car ks).1 := by
  induction ks with
  | nil => intro car h; exact h
  | cons k rest ih =>
      intro car h
      simp only [dispatchRun]
      exact ih _ (driven_dispatch_step car k h)

theorem dispatchRun_append_fst (ks1 : List ℕ) :
    ∀ (car : CarState) (ks2 : List ℕ),
      (dispatchRun car (ks1 ++ ks2)).1 =
        (dispatchRun (dispatchRun car ks1).1 ks2).1 := by
  induction ks1 with
  | nil => intro car ks2; rfl
  | cons k rest ih =>
      intro car ks2
      simp only [List.cons_append, dispatchRun]
      exact ih _ ks2

theorem clientRun_events (iters : List (List ℕ × ℕ)) : ∀ car : CarState,
    (clientRun car iters).1 =
      (iters.map fun p =>
        ClientEvent.capture p.1 ::
          [ClientEvent.writeBytes (encodeLE p.1.length), ClientEvent.flush,
            ClientEvent.writeBytes p.1, ClientEvent.readDecision,
            ClientEvent.act p.2]).flatten := by
  induction iters with
  | nil => intro car; simp [clientRun]
  | cons it rest ih =>
      intro car
      rcases it with ⟨frame, key⟩
      simp [clientRun, clientStep, ih]

/-- C1: every `clockwise_rotate`/`anticlockwise_rotate` call issues the
pair of direction-control writes exactly when the requested direction
differs from the stored last direction, and issues a duty-cycle write
exactly when the requested duty cycle differs from the stored last duty
cycle; after any run of rotation calls on a freshly constructed wheel,
`_last_dir` and `_last_dc_val` hold the direction and duty-cycle
signals most recently issued to hardware (the duty signal of the
constructor's `start(0)` included).  In particular two consecutive
`clockwise_rotate s` calls on a fresh wheel (whose initial duty value 0
differs from `s`) issue exactly one direction-control write and one
duty-cycle write in total, and a clockwise-to-clockwise call with a
changed duty cycle issues only the duty-cycle write, no direction
write. -/
theorem wheel_write_discipline :
    (∀ (w : WheelState) (s : ℚ),
      dirValues (Wheel.clockwise_rotate w s).2 =
        if w.last_dir ≠ Dir.c then [(Level.high, Level.low)] else []) ∧
    (∀ (w : WheelState) (s : ℚ),
      dirValues (Wheel.anticlockwise_rotate w s).2 =
        if w.last_dir ≠ Dir.a then [(Level.low, Level.high)] else []) ∧
    (∀ (w : WheelState) (s : ℚ),
      dutyValues (Wheel.clockwise_rotate w s).2 =
        if s ≠ w.last_dc_val then [s] else []) ∧
    (∀ (w : WheelState) (s : ℚ),
      dutyValues (Wheel.anticlockwise_rotate w s).2 =
        if s ≠ w.last_dc_val then [s] else []) ∧
    (∀ calls : List RotCall, calls ≠ [] →
      (dirValues (runRot Wheel.init calls).2).getLast? =
        some (dirLevels (runRot Wheel.init calls).1.last_dir)) ∧
    (∀ calls : List RotCall,
      (dutyValues
          (Wheel.initEvents ++ (runRot Wheel.init calls).2)).getLast? =
        some ((runRot Wheel.init calls).1.last_dc_val)) ∧
    (∀ s : ℚ, s ≠ 0 →
      (dirValues
          (runRot Wheel.init [RotCall.cw s, RotCall.cw s]).2).length = 1 ∧
      (dutyValues
          (runRot Wheel.init [RotCall.cw s, RotCall.cw s]).2).length = 1) ∧
    (∀ (w : WheelState) (s : ℚ), w.last_dir = Dir.c → s ≠ w.last_dc_val →
      (Wheel.clockwise_rotate w s).2 = [WheelEvent.dutyWrite s]) := by
  refine ⟨Wheel.cw_dirValues, Wheel.ccw_dirValues, Wheel.cw_dutyValues,
    Wheel.ccw_dutyValues, ?_, ?_, ?_, ?_⟩
  · intro calls hne
    have h1 := runRot_last_dir calls Wheel.init
    have h2 := runRot_dirValues_ne_nil calls Wheel.init hne rfl
    rcases hq : (dirValues (runRot Wheel.init calls).2).getLast? with _ | x
    · exact absurd (List.getLast?_eq_none_iff.mp hq) h2
    · rw [hq] at h1
      simp at h1
      rw [h1]
  · intro calls
    have h1 := runRot_last_dc calls Wheel.init
    rw [dutyValues_append, List.getLast?_append, h1]
    rcases hq : (dutyValues (runRot Wheel.init calls).2).getLast? with _ | x <;>
      simp [hq, Wheel.initEvents, dutyValues, Wheel.init, Option.or]
  · intro s hs
    simp [runRot, dirValues_append, dutyValues_append, Wheel.cw_dirValues,
      Wheel.cw_dutyValues, Wheel.cw_state, Wheel.init, hs]
  · intro w s hd hv
    rw [Wheel.cw_events]
    simp [hd, hv]

/-- Witness for C1: instantiates the hypothesis-bearing conjuncts on a
fresh wheel with speed 4, and the clockwise-to-clockwise transition on
the state ⟨c, 0, 0⟩ with new speed 4. -/
theorem wheel_write_discipline_witness :
    (([RotCall.cw 4, RotCall.cw 4] : List RotCall) ≠ [] ∧
      (dirValues (runRot Wheel.init [RotCall.cw 4, RotCall.cw 4]).2).getLast? =
        some (dirLevels
          (runRot Wheel.init [RotCall.cw 4, RotCall.cw 4]).1.last_dir)) ∧
    ((4 : ℚ) ≠ 0 ∧
      (dirValues
          (runRot Wheel.init [RotCall.cw 4, RotCall.cw 4]).2).length = 1 ∧
      (dutyValues
          (runRot Wheel.init [RotCall.cw 4, RotCall.cw 4]).2).length = 1) ∧
    ((⟨Dir.c, 0, 0⟩ : WheelState).last_dir = Dir.c ∧
      (4 : ℚ) ≠ (⟨Dir.c, 0, 0⟩ : WheelState).last_dc_val ∧
      (Wheel.clockwise_rotate ⟨Dir.c, 0, 0⟩ 4).2 =
        [WheelEvent.dutyWrite 4]) := by
  have h := wheel_write_discipline
  refine ⟨⟨by simp, ?_⟩, ⟨by norm_num, ?_⟩, ⟨rfl, by norm_num, ?_⟩⟩
  · exact h.2.2.2.2.1 [RotCall.cw 4, RotCall.cw 4] (by simp)
  · exact h.2.2.2.2.2.2.1 4 (by norm_num)
  · exact h.2.2.2.2.2.2.2 ⟨Dir.c, 0, 0⟩ 4 rfl (by norm_num)

/-- C2 counterexample: a fresh wheel asked to rotate clockwise with
duty cycle 150 has the raw value 150 issued to the hardware duty-cycle
signal — outside [0,100]; the code performs no clamping (and has no
diagnostic mechanism at all). -/
theorem duty_clamp_counterexample :
    ¬ dutyInRange (Wheel.clockwise_rotate Wheel.init 150).2 := by
  intro h
  have h150 : (150 : ℚ) ∈ dutyValues (Wheel.clockwise_rotate Wheel.init 150).2 := by
    rw [Wheel.cw_dutyValues]
    simp [Wheel.init]
  have := (h 150 h150).2
  norm_num at this

/-- C2 amended: a rotate call whose requested (biased) duty cycle
differs from the stored one issues exactly that value to the hardware,
unmodified — including values outside [0,100]; no clamping is applied
and no diagnostic is reported (no diagnostic channel exists); equal
values issue nothing.  Execution always continues (the operations are
total). -/
theorem duty_passthrough :
    (∀ (w : WheelState) (s : ℚ),
      dutyValues (Wheel.clockwise_rotate w s).2 =
        if s ≠ w.last_dc_val then [s] else []) ∧
    (∀ (w : WheelState) (s : ℚ),
      dutyValues (Wheel.anticlockwise_rotate w s).2 =
        if s ≠ w.last_dc_val then [s] else []) :=
  ⟨Wheel.cw_dutyValues, Wheel.ccw_dutyValues⟩

/-- C7: `stop()` issues the two direction-control signals both HIGH
(the brake state), leaves `_last_dir = 's'`, and leaves `_last_dc_val`
exactly as it was — it issues no duty-cycle signal at all. -/
theorem wheel_stop_effect (w : WheelState) :
    (Wheel.stop w).1.last_dir = Dir.s ∧
    (Wheel.stop w).1.last_dc_val = w.last_dc_val ∧
    dirValues (Wheel.stop w).2 = [(Level.high, Level.high)] ∧
    dutyValues (Wheel.stop w).2 = [] := by
  simp [Wheel.stop, dirValues, dutyValues]

/-- C8 counterexample: on a freshly constructed wheel the last
direction is already Stopped, yet `stop()` still issues the two
direction-control writes — the suppression of redundant direction
writes does not apply to `stop`. -/
theorem stop_suppression_counterexample :
    Wheel.init.last_dir = Dir.s ∧
    dirValues (Wheel.stop Wheel.init).2 ≠ [] := by
  constructor
  · rfl
  · simp [Wheel.stop, Wheel.init, dirValues]

/-- C8 amended: `stop()` performs no direction-change suppression; it
issues the two direction-control writes (both HIGH) unconditionally,
whatever `lastDirection` holds — including when it is already
Stopped. -/
theorem stop_unconditional (w : WheelState) :
    (Wheel.stop w).2 = [WheelEvent.dirWrite Level.high Level.high] := rfl

/-- C4: the decision byte '1' (49) dispatches to `rotate_left(4)`;
`rotate_left` drives all four wheels in the clockwise sense (pivot in
place); exactly the rear-left wheel carries the extra constant offset
1; the trim biases are front-left `LEFT_FR_BIAS + LEFT_RIGHT_BIAS`,
front-right `RIGHT_FR_BIAS`, rear-left the offset 1 plus
`LEFT_RIGHT_BIAS`, rear-right no bias; at speed 4 the requested duty
cycles are 5.2, 5, 5.2 and 4. -/
theorem dispatch_rotate_left :
    (∀ car : CarState, dispatch car 49 = Car.rotate_left car 4) ∧
    (∀ (car : CarState) (s : ℚ),
      (Car.rotate_left car s).1.front_left_wheel =
          ⟨Dir.c, s + LEFT_FR_BIAS + LEFT_RIGHT_BIAS,
            s + LEFT_FR_BIAS + LEFT_RIGHT_BIAS⟩ ∧
      (Car.rotate_left car s).1.front_right_wheel =
          ⟨Dir.c, s + RIGHT_FR_BIAS, s + RIGHT_FR_BIAS⟩ ∧
      (Car.rotate_left car s).1.rear_left_wheel =
          ⟨Dir.c, s + 1 + LEFT_RIGHT_BIAS, s + 1 + LEFT_RIGHT_BIAS⟩ ∧
      (Car.rotate_left car s).1.rear_right_wheel = ⟨Dir.c, s, s⟩) ∧
    ((4 : ℚ) + LEFT_FR_BIAS + LEFT_RIGHT_BIAS = 5.2 ∧
      (4 : ℚ) + RIGHT_FR_BIAS = 5 ∧
      (4 : ℚ) + 1 + LEFT_RIGHT_BIAS = 5.2) := by
  refine ⟨fun car => rfl, fun car s => ?_, ?_⟩
  · simp [Car.rotate_left, Wheel.cw_state]
  · norm_num [LEFT_FR_BIAS, RIGHT_FR_BIAS, LEFT_RIGHT_BIAS]

/-- C5: any received decision byte other than '0' (48), '1' (49) or
'2' (50) falls through the if/elif chain: no wheel operation runs, the
whole car state (every wheel's `_last_dir` and `_last_dc_val`) is
unchanged, no hardware event is issued, and the loop continues. -/
theorem dispatch_unrecognized (car : CarState) (key : ℕ)
    (h : ¬ recognized key) : dispatch car key = (car, []) := by
  rcases not_or.mp h with ⟨h1, hrest⟩
  rcases not_or.mp hrest with ⟨h2, h3⟩
  simp [dispatch, h1, h2, h3]

/-- Witness for C5: the unrecognized decision byte 51 ('3') leaves a
fresh car untouched and issues nothing. -/
theorem dispatch_unrecognized_witness :
    ¬ recognized 51 ∧ dispatch Car.init 51 = (Car.init, []) := by
  have h : ¬ recognized 51 := by simp [recognized]
  exact ⟨h, dispatch_unrecognized Car.init 51 h⟩

/-- C6: `move_forward` drives front-left and rear-left anticlockwise
and front-right and rear-right clockwise, adding the trim biases per
wheel; at speed 4 with `LEFT_FR_BIAS = 1`, `RIGHT_FR_BIAS = 1`,
`LEFT_RIGHT_BIAS = 0.2` the requested duty cycles are front-left 5.2,
front-right 5, rear-left 4.2, rear-right 4. -/
theorem move_forward_mapping :
    (∀ (car : CarState) (s : ℚ),
      (Car.move_forward car s).1.front_left_wheel =
          ⟨Dir.a, s + LEFT_FR_BIAS + LEFT_RIGHT_BIAS,
            s + LEFT_FR_BIAS + LEFT_RIGHT_BIAS⟩ ∧
      (Car.move_forward car s).1.front_right_wheel =
          ⟨Dir.c, s + RIGHT_FR_BIAS, s + RIGHT_FR_BIAS⟩ ∧
      (Car.move_forward car s).1.rear_left_wheel =
          ⟨Dir.a, s + LEFT_RIGHT_BIAS, s + LEFT_RIGHT_BIAS⟩ ∧
      (Car.move_forward car s).1.rear_right_wheel = ⟨Dir.c, s, s⟩) ∧
    ((4 : ℚ) + LEFT_FR_BIAS + LEFT_RIGHT_BIAS = 5.2 ∧
      (4 : ℚ) + RIGHT_FR_BIAS = 5 ∧
      (4 : ℚ) + LEFT_RIGHT_BIAS = 4.2) := by
  refine ⟨fun car s => ?_, ?_⟩
  · simp [Car.move_forward, Wheel.cw_state, Wheel.ccw_state]
  · norm_num [LEFT_FR_BIAS, RIGHT_FR_BIAS, LEFT_RIGHT_BIAS]

/-- C3: in each server-loop iteration the first 4 bytes of the stream
are read and decoded as an unsigned little-endian length; a zero length
terminates the session cleanly after only that 4-byte read, touching no
payload bytes; a nonzero length reads exactly that many payload bytes
(whenever the connection supplies them), hands exactly that payload to
the perception collaborator, writes one ASCII-digit decision byte (the
class index being a single digit) and flushes — and only then does the
loop continue on the remaining stream. -/
theorem server_loop_framing :
    (∀ b0 b1 b2 b3 : ℕ, decodeLE [b0, b1, b2, b3] =
      b0 + 256 * b1 + 256 ^ 2 * b2 + 256 ^ 3 * b3) ∧
    (∀ (classify : List ℕ → ℕ) (s : List ℕ),
      decodeLE (s.take 4) = 0 →
        serverStep classify s = ([ServEvent.readBytes (s.take 4)], none)) ∧
    (∀ (classify : List ℕ → ℕ) (s : List ℕ),
      decodeLE (s.take 4) ≠ 0 →
        serverStep classify s =
          ([ServEvent.readBytes (s.take 4),
            ServEvent.readBytes ((s.drop 4).take (decodeLE (s.take 4))),
            ServEvent.classifyCall ((s.drop 4).take (decodeLE (s.take 4))),
            ServEvent.writeBytes (asciiDecimal
              (classify ((s.drop 4).take (decodeLE (s.take 4))))),
            ServEvent.flush],
            some ((s.drop 4).drop (decodeLE (s.take 4))))) ∧
    (∀ s : List ℕ, 4 ≤ s.length → (s.take 4).length = 4) ∧
    (∀ s : List ℕ, 4 + decodeLE (s.take 4) ≤ s.length →
      ((s.drop 4).take (decodeLE (s.take 4))).length =
        decodeLE (s.take 4)) ∧
    (∀ n : ℕ, n < 10 → asciiDecimal n = [48 + n]) ∧
    (∀ (classify : List ℕ → ℕ) (fuel : ℕ) (s : List ℕ),
      decodeLE (s.take 4) ≠ 0 →
        serverRun classify (fuel + 1) s =
          (serverStep classify s).1 ++
            serverRun classify fuel
              ((s.drop 4).drop (decodeLE (s.take 4)))) := by
  refine ⟨?_, serverStep_zero, serverStep_pos, ?_, ?_, asciiDecimal_single,
    serverRun_succ_pos⟩
  · intro b0 b1 b2 b3
    simp [decodeLE]
    ring
  · intro s h
    simp [List.length_take]
    omega
  · intro s h
    rw [List.length_take, List.length_drop]
    omega

/-- Witness for C3: the stream [0,0,0,0] ends the session with the
lone 4-byte read; the stream [1,0,0,0,9] has length 1, reads the
1-byte payload [9], classifies it (here constantly 2), writes the
single digit and flushes; the next iteration runs on the remaining
stream. -/
theorem server_loop_framing_witness :
    (decodeLE (([0, 0, 0, 0] : List ℕ).take 4) = 0 ∧
      serverStep (fun _ => 2) [0, 0, 0, 0] =
        ([ServEvent.readBytes (([0, 0, 0, 0] : List ℕ).take 4)], none)) ∧
    (decodeLE (([1, 0, 0, 0, 9] : List ℕ).take 4) ≠ 0 ∧
      serverStep (fun _ => 2) [1, 0, 0, 0, 9] =
        ([ServEvent.readBytes (([1, 0, 0, 0, 9] : List ℕ).take 4),
          ServEvent.readBytes ((([1, 0, 0, 0, 9] : List ℕ).drop 4).take
            (decodeLE (([1, 0, 0, 0, 9] : List ℕ).take 4))),
          ServEvent.classifyCall ((([1, 0, 0, 0, 9] : List ℕ).drop 4).take
            (decodeLE (([1, 0, 0, 0, 9] : List ℕ).take 4))),
          ServEvent.writeBytes (asciiDecimal 2), ServEvent.flush],
          some ((([1, 0, 0, 0, 9] : List ℕ).drop 4).drop
            (decodeLE (([1, 0, 0, 0, 9] : List ℕ).take 4))))) ∧
    (4 + decodeLE (([1, 0, 0, 0, 9] : List ℕ).take 4) ≤
        ([1, 0, 0, 0, 9] : List ℕ).length ∧
      ((([1, 0, 0, 0, 9] : List ℕ).drop 4).take
          (decodeLE (([1, 0, 0, 0, 9] : List ℕ).take 4))).length =
        decodeLE (([1, 0, 0, 0, 9] : List ℕ).take 4)) ∧
    ((2 : ℕ) < 10 ∧ asciiDecimal 2 = [48 + 2]) ∧
    (serverRun (fun _ => 2) 2 [1, 0, 0, 0, 9] =
      (serverStep (fun _ => 2) [1, 0, 0, 0, 9]).1 ++
        serverRun (fun _ => 2) 1
          ((([1, 0, 0, 0, 9] : List ℕ).drop 4).drop
            (decodeLE (([1, 0, 0, 0, 9] : List ℕ).take 4)))) := by
  have h := server_loop_framing
  have hz : decodeLE (([0, 0, 0, 0] : List ℕ).take 4) = 0 := by decide
  have hp : decodeLE (([1, 0, 0, 0, 9] : List ℕ).take 4) ≠ 0 := by decide
  refine ⟨⟨hz, h.2.1 (fun _ => 2) [0, 0, 0, 0] hz⟩,
    ⟨hp, ?_⟩, ⟨by decide, h.2.2.2.2.1 [1, 0, 0, 0, 9] (by decide)⟩,
    ⟨by decide, h.2.2.2.2.2.1 2 (by decide)⟩,
    h.2.2.2.2.2.2 (fun _ => 2) 1 [1, 0, 0, 0, 9] hp⟩
  have h3 := h.2.2.1 (fun _ => 2) [1, 0, 0, 0, 9] hp
  simpa using h3

/-- C9 counterexample: for the concrete frame [7,7,7] and decision byte
48, the client iteration's event order is not the spec's order (length
prefix, payload, flush, read): the code's flush comes after the length
prefix and before the payload, and no flush follows the payload. -/
theorem client_order_counterexample :
    (clientStep [7, 7, 7] 48 Car.init).1 ≠ specClientOrder [7, 7, 7] 48 := by
  simp [clientStep, specClientOrder]

/-- C9 amended: in each client iteration the code writes the 4-byte
unsigned little-endian length prefix, then flushes, then writes the
payload bytes, and then performs the blocking read of exactly one
decision byte and dispatches it; the loop's whole trace is the
concatenation of such per-iteration blocks, each beginning with its
frame capture, so no new frame is captured until the previous
iteration's decision byte has been read. -/
theorem client_order :
    (∀ (frame : List ℕ) (key : ℕ) (car : CarState),
      (clientStep frame key car).1 =
        [ClientEvent.writeBytes (encodeLE frame.length), ClientEvent.flush,
          ClientEvent.writeBytes frame, ClientEvent.readDecision,
          ClientEvent.act key]) ∧
    (∀ (car : CarState) (iters : List (List ℕ × ℕ)),
      (clientRun car iters).1 =
        (iters.map fun p =>
          ClientEvent.capture p.1 ::
            [ClientEvent.writeBytes (encodeLE p.1.length),
              ClientEvent.flush, ClientEvent.writeBytes p.1,
              ClientEvent.readDecision, ClientEvent.act p.2]).flatten) :=
  ⟨fun _ _ _ => rfl, fun car iters => clientRun_events iters car⟩

/-- C10: the streaming client's dispatch never reaches the drive
controller's stop operation: no brake signal (both direction pins HIGH)
ever occurs in the hardware trace of any sequence of decision bytes;
an unrecognized byte invokes nothing and changes nothing; a recognized
byte leaves every wheel rotating with a positive duty cycle, and that
driven condition is preserved by every further decision byte — so after
any recognized decision the wheels stay driven for the rest of the
session, across any number of unrecognized bytes. -/
theorem client_never_stops :
    (∀ (car : CarState) (keys : List ℕ),
      ∀ e ∈ (dispatchRun car keys).2,
        e.2 ≠ WheelEvent.dirWrite Level.high Level.high) ∧
    (∀ (car : CarState) (key : ℕ), ¬ recognized key →
      dispatch car key = (car, [])) ∧
    (∀ (car : CarState) (key : ℕ), recognized key →
      driven (dispatch car key).1) ∧
    (∀ (car : CarState) (key : ℕ), driven car →
      driven (dispatch car key).1) ∧
    (∀ (car : CarState) (ks1 : List ℕ) (k : ℕ) (ks2 : List ℕ),
      recognized k → driven (dispatchRun car (ks1 ++ k :: ks2)).1) := by
  refine ⟨fun car keys => dispatchRun_no_brake keys car,
    dispatch_eq_of_not_recognized, driven_dispatch_recognized,
    driven_dispatch_step, ?_⟩
  intro car ks1 k ks2 hk
  rw [dispatchRun_append_fst]
  simp only [dispatchRun]
  exact driven_dispatchRun ks2 _ (driven_dispatch_recognized _ k hk)

/-- Witness for C10 at concrete inputs: the first hardware event of the
decision '1' on a fresh car is not a brake signal; byte 51 is
unrecognized and leaves the car as is; decision '1' leaves the car
driven; a later unrecognized byte keeps it driven; and a session
[51, 49, 51] ends driven. -/
theorem client_never_stops_witness :
    ((WheelId.front_left, WheelEvent.dirWrite Level.high Level.low) ∈
        (dispatchRun Car.init [49]).2 ∧
      (WheelId.front_left,
        WheelEvent.dirWrite Level.high Level.low).2 ≠
        WheelEvent.dirWrite Level.high Level.high) ∧
    (¬ recognized 51 ∧ dispatch Car.init 51 = (Car.init, [])) ∧
    (recognized 49 ∧ driven (dispatch Car.init 49).1) ∧
    (driven (dispatch (dispatch Car.init 49).1 51).1) ∧
    (driven (dispatchRun Car.init ([51] ++ 49 :: [51])).1) := by
  have h := client_never_stops
  have hr : recognized 49 := Or.inr (Or.inl rfl)
  have hnr : ¬ recognized 51 := by simp [recognized]
  have hm : (WheelId.front_left, WheelEvent.dirWrite Level.high Level.low) ∈
      (dispatchRun Car.init [49]).2 := by
    simp [dispatchRun, dispatch, Car.rotate_left, tagged, Wheel.cw_events,
      Wheel.init, Car.init]
  exact ⟨⟨hm, h.1 Car.init [49] _ hm⟩, ⟨hnr, h.2.1 Car.init 51 hnr⟩,
    ⟨hr, h.2.2.1 Car.init 49 hr⟩,
    h.2.2.2.1 _ 51 (h.2.2.1 Car.init 49 hr),
    h.2.2.2.2 Car.init [51] 49 [51] hr⟩

end AutoCar
